import Mathlib

/-!
Shallow embedding of the MetaImGUI background-task / recovery core:
the WindowManager context-recovery state machine, the UpdateChecker
one-shot async check, the ISSTracker repeating poller, and the
Application-side result mailbox, translated from the C++ sources.
-/

namespace MetaImGUI

namespace WindowManager

/-- Constant `MAX_RECOVERY_ATTEMPTS` from WindowManager.h. -/
def MAX_RECOVERY_ATTEMPTS : Nat := 3

/-- The per-instance state touched by `ValidateContext` / `RecreateContext`:
whether `m_window` is non-null, the GLFW window-should-close flag, and
`m_contextRecoveryAttempts`. -/
structure RecoveryState where
  hasWindow : Bool
  shouldClose : Bool
  attempts : Nat
deriving Repr, DecidableEq

/-- The ambient GL/GLFW environment observed during one `ValidateContext`
call: whether `glfwGetCurrentContext() == m_window` at the validity check,
whether `glGetError()` reported `GL_CONTEXT_LOST` / `GL_OUT_OF_MEMORY`,
whether `glfwMakeContextCurrent` succeeds inside `RecreateContext`, and the
injected `m_contextLossCallback` (`none` when unset, `some b` when set and
returning `b`). -/
structure GlEnv where
  currentIsWindow : Bool
  glErrorLost : Bool
  makeCurrentOk : Bool
  contextLossCallback : Option Bool
deriving Repr, DecidableEq

/-- Result of one `ValidateContext` call: the new state, the returned
Bool, and whether the recovery callback was invoked during the call. -/
structure ValidateOutcome where
  state : RecoveryState
  result : Bool
  cbInvoked : Bool
deriving Repr, DecidableEq

/-- Model of `WindowManager::RecreateContext` (WindowManager.cpp lines 233-272):
increments `m_contextRecoveryAttempts`; if it now exceeds
`MAX_RECOVERY_ATTEMPTS`, sets the window close-request flag and returns
false without touching the callback; otherwise re-makes the context
current, invokes the context-loss callback if set, and resets the counter
to 0 on success. -/
def RecreateContext (env : GlEnv) (s : RecoveryState) : ValidateOutcome :=
  let s1 := { s with attempts := s.attempts + 1 }
  if s1.attempts > MAX_RECOVERY_ATTEMPTS then
    { state := { s1 with shouldClose := true }, result := false, cbInvoked := false }
  else if env.makeCurrentOk = false then
    { state := s1, result := false, cbInvoked := false }
  else
    match env.contextLossCallback with
    | some false => { state := s1, result := false, cbInvoked := true }
    | some true  => { state := { s1 with attempts := 0 }, result := true, cbInvoked := true }
    | none       => { state := { s1 with attempts := 0 }, result := true, cbInvoked := false }

/-- Model of `WindowManager::ValidateContext` (WindowManager.cpp lines 202-231):
returns false immediately when `m_window` is null; calls
`RecreateContext` when the current context is not the window or a
context-loss GL error is pending; otherwise resets the attempts counter
and returns true. -/
def ValidateContext (env : GlEnv) (s : RecoveryState) : ValidateOutcome :=
  if s.hasWindow = false then
    { state := s, result := false, cbInvoked := false }
  else if env.currentIsWindow = false then
    RecreateContext env s
  else if env.glErrorLost = true then
    RecreateContext env s
  else
    { state := { s with attempts := 0 }, result := true, cbInvoked := false }

/-- Fresh recovery state: window present, no close request, zero attempts. -/
def initialState : RecoveryState :=
  { hasWindow := true, shouldClose := false, attempts := 0 }

/-- Environment for the always-failing-recovery scenario: the context is
detected invalid, making it current works, and the injected recovery
callback always returns false. -/
def failEnv : GlEnv :=
  { currentIsWindow := false, glErrorLost := false, makeCurrentOk := true,
    contextLossCallback := some false }

/-- Environment in which the context is detected invalid but the injected
recovery callback succeeds. -/
def recoverEnv : GlEnv :=
  { currentIsWindow := false, glErrorLost := false, makeCurrentOk := true,
    contextLossCallback := some true }

/-- State after `n` calls to `ValidateContext` under `failEnv`. -/
def FailRun : Nat → RecoveryState
  | 0 => initialState
  | n + 1 => (ValidateContext failEnv (FailRun n)).state

/-- Outcome of the `(n+1)`-st `ValidateContext` call under `failEnv`. -/
def FailStep (n : Nat) : ValidateOutcome :=
  ValidateContext failEnv (FailRun n)

end WindowManager

namespace UpdateChecker

/-- Structure `UpdateInfo` from UpdateChecker.h. -/
structure UpdateInfo where
  updateAvailable : Bool
  latestVersion : String
  currentVersion : String
  releaseUrl : String
  releaseNotes : String
  downloadUrl : String
deriving Repr, DecidableEq

/-- Numeric value of a digit run: the decimal accumulation that
`std::stoi` performs on the digits collected by the `parseVersion`
lambda (a helper for the `stoi` model below, which adds the range
behaviour of the source call). -/
def natOfDigits (cs : List Char) : Nat :=
  cs.foldl (fun n c => n * 10 + (c.toNat - 48)) 0

/-- Constant `INT_MAX` of the platform `int` that `std::stoi` converts to
(32-bit on the desktop targets this repository builds for). -/
def INT_MAX : Nat := 2147483647

/-- Model of the `std::stoi(numStr)` call in the `parseVersion` lambda
(UpdateChecker.cpp line 250): the digit run is non-negative, so the call
returns its value when it fits in `int` and throws `std::out_of_range`
(modelled as `Except.error`) when it exceeds `INT_MAX`; `CompareVersions`
installs no handler, so the error propagates out of it. -/
def stoi (cs : List Char) : Except String Nat :=
  if natOfDigits cs ≤ INT_MAX then Except.ok (natOfDigits cs)
  else Except.error "out_of_range"

/-- The piece-by-piece loop of the `parseVersion` lambda
(UpdateChecker.cpp lines 239-252): each piece contributes the `stoi` of
its leading digit run, pieces with no leading digit are skipped, and the
first `std::out_of_range` aborts the walk. -/
def parseParts : List (List Char) → Except String (List Nat)
  | [] => Except.ok []
  | piece :: rest =>
    let numStr := piece.takeWhile Char.isDigit
    if numStr = [] then parseParts rest
    else
      match stoi numStr with
      | Except.error e => Except.error e
      | Except.ok v =>
        match parseParts rest with
        | Except.error e => Except.error e
        | Except.ok vs => Except.ok (v :: vs)

/-- The `parseVersion` lambda inside `UpdateChecker::CompareVersions`
(UpdateChecker.cpp lines 229-260): strips one leading 'v' or 'V', splits
on periods, converts each piece's leading digit run with `std::stoi`
(whose `std::out_of_range` propagates), and pads the result with zeros to
at least three components. -/
def parseVersion (version : String) : Except String (List Nat) :=
  let chars :=
    match version.data with
    | c :: rest => if c = 'v' ∨ c = 'V' then rest else c :: rest
    | [] => []
  match parseParts (chars.splitOn '.') with
  | Except.error e => Except.error e
  | Except.ok parts => Except.ok (parts ++ List.replicate (3 - parts.length) 0)

/-- The comparison loop of `UpdateChecker::CompareVersions`
(UpdateChecker.cpp lines 265-272): walk the common prefix of the two
component lists, returning -1 or 1 at the first difference and 0 when
either list is exhausted. -/
def compareParts : List Nat → List Nat → Int
  | a :: restA, b :: restB =>
    if a < b then -1 else if b < a then 1 else compareParts restA restB
  | _, _ => 0

/-- Model of `UpdateChecker::CompareVersions` (UpdateChecker.cpp lines
228-273): parses both arguments in order (an uncaught `std::out_of_range`
from either parse propagates out of the function) and compares the common
prefix of the component lists. -/
def CompareVersions (v1 v2 : String) : Except String Int :=
  match parseVersion v1 with
  | Except.error e => Except.error e
  | Except.ok parts1 =>
    match parseVersion v2 with
    | Except.error e => Except.error e
    | Except.ok parts2 => Except.ok (compareParts parts1 parts2)

end UpdateChecker

namespace Application

open UpdateChecker

/-- The Application fields touched by the update-check handoff
(Application.h / Application.cpp): the mutex-guarded single-slot
`m_pendingUpdateResult` mailbox plus the consumer-owned state written when
it is drained. -/
structure AppState where
  pendingUpdateResult : Option UpdateInfo
  updateCheckInProgress : Bool
  latestUpdateInfo : Option UpdateInfo
  showUpdateNotification : Bool
  statusMessage : String
deriving Repr, DecidableEq

/-- Model of `Application::OnUpdateCheckComplete` (Application.cpp lines 486-493):
runs on the worker thread and stores the result into the mailbox slot
under the mutex. -/
def OnUpdateCheckComplete (info : UpdateInfo) (s : AppState) : AppState :=
  { s with pendingUpdateResult := some info }

/-- The consume block at the top of `Application::Render` (Application.cpp
lines 274-291): under the mutex, if the slot is non-empty, move the result
out (emptying the slot), mark the check finished, record the result, raise
the notification flag, and set the status message. -/
def RenderConsumePending (s : AppState) : AppState :=
  match s.pendingUpdateResult with
  | some info =>
    { s with
      pendingUpdateResult := none
      updateCheckInProgress := false
      latestUpdateInfo := some info
      showUpdateNotification := true
      statusMessage :=
        if info.updateAvailable then "Update available: v" ++ info.latestVersion
        else "Ready" }
  | none => s

end Application

/-- Stop-request wiring shared by the two orchestrators: `m_stopSource` is
the member `std::stop_source` that `UpdateChecker::Cancel` and
`ISSTracker::StopTracking` request stop on, while the worker lambdas take
a `std::stop_token stopToken` parameter (UpdateChecker.cpp line 37,
ISSTracker.cpp line 33), so `std::jthread` hands them the token of its own
internal stop source; the two sources are distinct objects and are never
connected. -/
structure StopWiring where
  memberSourceRequested : Bool
  jthreadSourceRequested : Bool
deriving Repr, DecidableEq

/-- Wiring state right after a start: `m_stopSource = std::stop_source()`
is freshly constructed (UpdateChecker.cpp line 36, ISSTracker.cpp line 32)
and the jthread-internal source has no pending request (it receives one
only from jthread destruction or reassignment). -/
def freshWiring : StopWiring :=
  { memberSourceRequested := false, jthreadSourceRequested := false }

/-- Value of the stop token the worker lambdas actually poll: the
jthread-internal token, not the member `m_stopSource`. -/
def polledToken (w : StopWiring) : Bool := w.jthreadSourceRequested

namespace ISSTracker

/-- Structure `ISSPosition` from ISSTracker.h. The numeric payload fields
are only copied, stored and compared for identity by the modelled code, so
they are embedded as integers. -/
structure ISSPosition where
  latitude : Int
  longitude : Int
  altitude : Int
  velocity : Int
  timestamp : Int
  valid : Bool
deriving Repr, DecidableEq

/-- Constant `m_maxHistorySize` from ISSTracker.h. -/
def m_maxHistorySize : Nat := 100

/-- The `while (m_positionHistory.size() > m_maxHistorySize) pop_front()`
eviction loop at the end of `ISSTracker::AddToHistory`. -/
def trimHistory (h : List ISSPosition) : List ISSPosition :=
  if h.length > m_maxHistorySize then trimHistory h.tail else h
termination_by h.length
decreasing_by
  simp only [List.length_tail]
  omega

/-- Model of `ISSTracker::AddToHistory` (ISSTracker.cpp lines 236-250): invalid
positions are not inserted; otherwise the position is appended at the back
and the oldest entries are popped from the front while the size exceeds
`m_maxHistorySize`. -/
def AddToHistory (history : List ISSPosition) (position : ISSPosition) :
    List ISSPosition :=
  if position.valid = false then history
  else trimHistory (history ++ [position])

/-- Value of the shared stop token at time `t`, for a cancellation
requested at time `tCancel` (the token is set once and never cleared). -/
def tokenAt (tCancel t : Nat) : Bool := decide (tCancel ≤ t)

/-- The tracker state owned by the consumer side: `m_currentPosition` and
`m_positionHistory` (both written under `m_dataMutex`). -/
structure TrackerState where
  currentPosition : ISSPosition
  positionHistory : List ISSPosition
deriving Repr, DecidableEq

/-- One iteration of `ISSTracker::TrackingLoop` (ISSTracker.cpp lines
82-113), with explicit times: the stop token is read once, at the top of
the loop at time `tTop`; if it is not yet set the iteration fetches, and a
valid fetched position is stored into `m_currentPosition`, appended to the
history, and handed to the callback (no further token check happens inside
the body). The returned Bool records whether the callback was invoked. -/
def TrackingIteration (tCancel tTop : Nat) (fetched : ISSPosition)
    (hasCallback : Bool) (ts : TrackerState) : TrackerState × Bool :=
  if tokenAt tCancel tTop = true then (ts, false)
  else if fetched.valid = true then
    ({ currentPosition := fetched,
       positionHistory := AddToHistory ts.positionHistory fetched },
     hasCallback)
  else (ts, false)

/-- The inter-iteration wait loop of `ISSTracker::TrackingLoop`
(ISSTracker.cpp lines 115-124), checking the token before each 100ms
sub-sleep: the `k`-th check happens at time `t0 + 100 * k`; the loop exits
with `true` when the token is observed set, and with `false` once the
elapsed time reaches 5 seconds. -/
def waitLoopAux (tCancel t0 k : Nat) : Nat × Bool :=
  if tokenAt tCancel (t0 + 100 * k) = true then (t0 + 100 * k, true)
  else if 5 ≤ (t0 + 100 * k - t0) / 1000 then (t0 + 100 * k, false)
  else waitLoopAux tCancel t0 (k + 1)
termination_by 50 - k
decreasing_by
  rename_i _h1 h2
  simp only [Nat.add_sub_cancel_left] at h2
  omega

/-- The full inter-iteration wait starting at time `t0`: returns the time
at which the loop exits and whether it exited because the token was set. -/
def InterIterationWait (tCancel t0 : Nat) : Nat × Bool :=
  waitLoopAux tCancel t0 0

/-- Control state shared by `StartTracking` and the tracking worker:
the atomic running flag plus a count of worker threads spawned so far. -/
structure TrackerCtl where
  tracking : Bool
  workersSpawned : Nat
deriving Repr, DecidableEq

/-- Model of `ISSTracker::StartTracking` (ISSTracker.cpp lines 20-36): under the
thread mutex, if already tracking, log and return without any state
change; otherwise set the flag and spawn the tracking thread. The Bool
records whether a worker was spawned. -/
def StartTracking (c : TrackerCtl) : TrackerCtl × Bool :=
  if c.tracking = true then (c, false)
  else ({ tracking := true, workersSpawned := c.workersSpawned + 1 }, true)

/-- Model of `ISSTracker::StopTracking` (ISSTracker.cpp lines 38-50):
under the thread mutex, returns unchanged when not tracking; otherwise
requests stop on the member `m_stopSource` — not on the jthread-internal
source whose token the tracking loop polls — and clears `m_tracking`. -/
def StopTracking (c : TrackerCtl) (w : StopWiring) : TrackerCtl × StopWiring :=
  if c.tracking = false then (c, w)
  else ({ c with tracking := false }, { w with memberSourceRequested := true })

/-- One `TrackingLoop` iteration keyed on the actual stop wiring: the same
body as `TrackingIteration`, with the loop-top check reading the polled
jthread-internal token of the wiring. -/
def TrackingIterationWired (w : StopWiring) (fetched : ISSPosition)
    (hasCallback : Bool) (ts : TrackerState) : TrackerState × Bool :=
  if polledToken w = true then (ts, false)
  else if fetched.valid = true then
    ({ currentPosition := fetched,
       positionHistory := AddToHistory ts.positionHistory fetched },
     hasCallback)
  else (ts, false)

/-- Model of `ISSTracker::FetchPositionImpl` (ISSTracker.cpp lines 130-151): the
fetch and parse are fallible (`Except` models an exception escaping them);
every failure is caught at this boundary and converted to the invalid
position, so the function always returns an `ISSPosition`. -/
def FetchPositionImpl (fetchOutcome : Except String String)
    (parseOutcome : String → Except String ISSPosition) : ISSPosition :=
  let invalid : ISSPosition :=
    { latitude := 0, longitude := 0, altitude := 0, velocity := 0,
      timestamp := 0, valid := false }
  match fetchOutcome with
  | .error _ => invalid
  | .ok jsonResponse =>
    if jsonResponse = "" then invalid
    else
      match parseOutcome jsonResponse with
      | .error _ => invalid
      | .ok p => p

/-- The guarded callback invocation inside `ISSTracker::TrackingLoop`
(ISSTracker.cpp lines 95-103): an exception thrown by the callback is
caught and turned into a log line, never propagated. -/
def InvokeTrackerCallbackGuarded (cbOutcome : Except String Unit) :
    Option String :=
  match cbOutcome with
  | .ok _ => none
  | .error e => some ("ISS Tracker: Callback threw exception: " ++ e)

end ISSTracker

namespace UpdateChecker

/-- Control state of `UpdateChecker`: the atomic `m_checking` flag plus a
count of worker threads spawned so far. -/
structure CheckerCtl where
  checking : Bool
  workersSpawned : Nat
deriving Repr, DecidableEq

/-- Model of the `UpdateChecker::CheckForUpdatesAsync` entry (UpdateChecker.cpp lines
25-54): under the thread mutex, if a check is already in progress, log and
return without any state change; otherwise set `m_checking` and spawn the
worker thread. The Bool records whether a worker was spawned. -/
def CheckForUpdatesAsync (c : CheckerCtl) : CheckerCtl × Bool :=
  if c.checking = true then (c, false)
  else ({ checking := true, workersSpawned := c.workersSpawned + 1 }, true)

/-- The tail of the worker lambda in `CheckForUpdatesAsync`
(UpdateChecker.cpp lines 37-52), with explicit times: after the
implementation returns, the stop token is read once at time `tCheck`; the
completion callback (which performs the mailbox write,
`Application::OnUpdateCheckComplete`) is invoked only if the token was not
set and a callback is present. The Bool records whether the mailbox was
written. -/
def UpdateWorkerFinish (tCancel tCheck : Nat) (info : UpdateInfo)
    (hasCallback : Bool) (app : Application.AppState) :
    Application.AppState × Bool :=
  if ISSTracker.tokenAt tCancel tCheck = false ∧ hasCallback = true then
    (Application.OnUpdateCheckComplete info app, true)
  else (app, false)

/-- Model of `UpdateChecker::Cancel` (UpdateChecker.cpp lines 64-72):
under the thread mutex, requests stop on the member `m_stopSource` and
logs — the jthread-internal source whose token the worker polls is
untouched. -/
def Cancel (w : StopWiring) : StopWiring :=
  { w with memberSourceRequested := true }

/-- The tail of the worker lambda in `CheckForUpdatesAsync` keyed on the
actual stop wiring: the same branch as `UpdateWorkerFinish`, with the
post-completion check at UpdateChecker.cpp line 43 reading the polled
jthread-internal token of the wiring. -/
def UpdateWorkerFinishWired (w : StopWiring) (info : UpdateInfo)
    (hasCallback : Bool) (app : Application.AppState) :
    Application.AppState × Bool :=
  if polledToken w = false ∧ hasCallback = true then
    (Application.OnUpdateCheckComplete info app, true)
  else (app, false)

/-- Model of `UpdateChecker::CheckForUpdatesImpl` (UpdateChecker.cpp lines 78-129):
the network fetch and the JSON parse are fallible (`Except` models an
exception escaping them); the surrounding try/catch converts every failure
into an `UpdateInfo` with `updateAvailable = false` — including a
`std::out_of_range` escaping `CompareVersions`, caught by the
`catch (std::exception)` at lines 120-122 — and a stop request or an
empty response also yields the no-update default, so the function always
returns an `UpdateInfo`. -/
def CheckForUpdatesImpl (currentVersion : String) (stopRequested : Bool)
    (fetchOutcome : Except String String)
    (parseOutcome : String → Except String UpdateInfo) : UpdateInfo :=
  let info0 : UpdateInfo :=
    { updateAvailable := false, latestVersion := "",
      currentVersion := currentVersion, releaseUrl := "",
      releaseNotes := "", downloadUrl := "" }
  match fetchOutcome with
  | .error _ => info0
  | .ok jsonResponse =>
    if stopRequested then info0
    else if jsonResponse = "" then info0
    else
      match parseOutcome jsonResponse with
      | .error _ => info0
      | .ok parsed =>
        let info := { parsed with currentVersion := currentVersion }
        if info.latestVersion ≠ "" then
          match CompareVersions info.currentVersion info.latestVersion with
          | .error _ => { info with updateAvailable := false }
          | .ok cmp => { info with updateAvailable := cmp < 0 }
        else info

/-- The guarded callback invocation inside the worker lambda of
`CheckForUpdatesAsync` (UpdateChecker.cpp lines 43-51): an exception
thrown by the completion callback is caught and turned into a log line,
never propagated. -/
def InvokeCheckerCallbackGuarded (cbOutcome : Except String Unit) :
    Option String :=
  match cbOutcome with
  | .ok _ => none
  | .error e => some ("Update Checker: Callback threw exception: " ++ e)

end UpdateChecker

end MetaImGUI

namespace MetaImGUI.WindowManager

theorem FailRun_invariant (n : Nat) :
    (FailRun n).attempts = n ∧ (FailRun n).hasWindow = true ∧
      ((FailRun n).shouldClose = true ↔ 4 ≤ n) := by
  induction n with
  | zero => refine ⟨rfl, rfl, ?_⟩; simp [FailRun, initialState]
  | succ n ih =>
    obtain ⟨ha, hw, hc⟩ := ih
    by_cases h4 : 3 < n + 1
    · simp [FailRun, ValidateContext, RecreateContext, failEnv,
        MAX_RECOVERY_ATTEMPTS, hw, ha, h4]
      omega
    · simp [FailRun, ValidateContext, RecreateContext, failEnv,
        MAX_RECOVERY_ATTEMPTS, hw, ha, h4, hc]
      omega

end MetaImGUI.WindowManager

namespace MetaImGUI.UpdateChecker

theorem compareParts_antisymm :
    ∀ xs ys : List Nat, compareParts xs ys = -compareParts ys xs := by
  intro xs
  induction xs with
  | nil => intro ys; cases ys <;> simp [compareParts]
  | cons a restA ih =>
    intro ys
    cases ys with
    | nil => simp [compareParts]
    | cons b restB =>
      simp only [compareParts]
      rcases Nat.lt_trichotomy a b with h | h | h
      · simp [h, Nat.lt_asymm h]
      · simp [h, Nat.lt_irrefl, ih restB]
      · simp [h, Nat.lt_asymm h]

theorem compareParts_refl (xs : List Nat) : compareParts xs xs = 0 := by
  induction xs with
  | nil => simp [compareParts]
  | cons a restA ih => simp [compareParts, ih]

end MetaImGUI.UpdateChecker

open MetaImGUI UpdateChecker in
/-- C9 counterexample: a version component exceeding `INT_MAX` makes the
`std::stoi` inside `CompareVersions` throw `std::out_of_range`, which the
function does not catch, so comparing "9999999999" with itself raises
instead of returning 0 — reflexivity as claimed fails at this input. -/
theorem C9_compare_versions_counterexample :
    CompareVersions "9999999999" "9999999999" =
      Except.error "out_of_range" ∧
    CompareVersions "9999999999" "9999999999" ≠ Except.ok 0 := by
  have h1 : CompareVersions "9999999999" "9999999999" =
      Except.error "out_of_range" := rfl
  refine ⟨h1, ?_⟩
  rw [h1]
  intro h
  exact Except.noConfusion h

open MetaImGUI UpdateChecker in
/-- C9 amended: `CompareVersions` ignores a single leading 'v'/'V' and
compares only the common prefix of extracted numeric components, so
"1.2.3.4" vs "1.2.3" and "v1.2.3"/"V1.2.3" vs "1.2.3" all compare equal;
whenever the comparison returns at all (every numeric component fits in
`int`), it is antisymmetric and reflexive — on a component above
`INT_MAX` it throws `std::out_of_range` instead of returning a value. -/
theorem C9_compare_versions_amended :
    CompareVersions "1.2.3.4" "1.2.3" = Except.ok 0 ∧
    CompareVersions "v1.2.3" "1.2.3" = Except.ok 0 ∧
    CompareVersions "V1.2.3" "1.2.3" = Except.ok 0 ∧
    (∀ (v1 v2 : String) (c : Int), CompareVersions v1 v2 = Except.ok c →
      CompareVersions v2 v1 = Except.ok (-c)) ∧
    (∀ (v : String) (c : Int), CompareVersions v v = Except.ok c → c = 0) := by
  refine ⟨rfl, rfl, rfl, ?_, ?_⟩
  · intro v1 v2 c h
    unfold CompareVersions at h ⊢
    cases hp1 : parseVersion v1 with
    | error e => rw [hp1] at h; simp at h
    | ok p1 =>
      rw [hp1] at h
      cases hp2 : parseVersion v2 with
      | error e => rw [hp2] at h; simp at h
      | ok p2 =>
        rw [hp2] at h
        simp only [Except.ok.injEq] at h
        show Except.ok (compareParts p2 p1) = Except.ok (-c)
        rw [compareParts_antisymm p2 p1, h]
  · intro v c h
    unfold CompareVersions at h
    cases hp : parseVersion v with
    | error e => rw [hp] at h; simp at h
    | ok p =>
      rw [hp] at h
      simp only [Except.ok.injEq] at h
      rw [← h, compareParts_refl p]

open MetaImGUI UpdateChecker in
/-- C9 amended witness: antisymmetry applied at "1.2" versus "3.4". -/
theorem C9_compare_versions_amended_witness :
    CompareVersions "3.4" "1.2" = Except.ok (-(-1)) :=
  C9_compare_versions_amended.2.2.2.1 "1.2" "3.4" (-1) rfl

open MetaImGUI WindowManager in
/-- C1: with a recovery callback that always fails, every `ValidateContext`
call on an invalid resource performs exactly one attempt (the counter goes
from `n` to `n+1` on the `(n+1)`-st call); the callback is invoked on
attempts 1 through 3 only; from the 4th detected invalidity on, the machine
sets the window close-request flag, returns false, and never invokes the
recovery callback again. -/
theorem C1_bounded_retry_terminal (n : Nat) :
    (FailRun n).attempts = n ∧
    (FailStep n).state.attempts = n + 1 ∧
    ((FailStep n).cbInvoked = true ↔ n < 3) ∧
    (FailStep n).result = false ∧
    ((FailStep n).state.shouldClose = true ↔ 3 ≤ n) := by
  obtain ⟨ha, hw, hc⟩ := FailRun_invariant n
  have hstep : FailStep n = ValidateContext failEnv (FailRun n) := rfl
  by_cases h4 : 3 < n + 1
  · refine ⟨ha, ?_, ?_, ?_, ?_⟩ <;>
      simp [hstep, ValidateContext, RecreateContext, failEnv,
        MAX_RECOVERY_ATTEMPTS, hw, ha, h4] <;> omega
  · refine ⟨ha, ?_, ?_, ?_, ?_⟩ <;>
      simp [hstep, ValidateContext, RecreateContext, failEnv,
        MAX_RECOVERY_ATTEMPTS, hw, ha, h4, hc] <;> omega

open MetaImGUI WindowManager in
/-- C1 witness: the scenario evaluated at the 4th call (`n = 3`). -/
theorem C1_bounded_retry_terminal_witness :
    (FailRun 3).attempts = 3 ∧
    (FailStep 3).state.attempts = 4 ∧
    ((FailStep 3).cbInvoked = true ↔ 3 < 3) ∧
    (FailStep 3).result = false ∧
    ((FailStep 3).state.shouldClose = true ↔ 3 ≤ 3) :=
  C1_bounded_retry_terminal 3

open MetaImGUI WindowManager in
/-- C5: observing a valid resource resets the attempts counter to 0, and a
successful recovery resets it to 0; concretely, after two failed recovery
attempts followed by one successful recovery, the next detected invalidity
is counted as attempt 1 (and invokes the callback). -/
theorem C5_recovery_resets_attempts :
    (∀ env s, s.hasWindow = true → env.currentIsWindow = true →
      env.glErrorLost = false →
      (ValidateContext env s).state.attempts = 0 ∧
        (ValidateContext env s).result = true) ∧
    (∀ env s, (RecreateContext env s).result = true →
      (RecreateContext env s).state.attempts = 0) ∧
    ((FailRun 2).attempts = 2 ∧
      (ValidateContext recoverEnv (FailRun 2)).state.attempts = 0 ∧
      (ValidateContext recoverEnv (FailRun 2)).result = true ∧
      (ValidateContext failEnv
        (ValidateContext recoverEnv (FailRun 2)).state).state.attempts = 1 ∧
      (ValidateContext failEnv
        (ValidateContext recoverEnv (FailRun 2)).state).cbInvoked = true) := by
  refine ⟨?_, ?_, ?_⟩
  · intro env s hw hcur herr
    simp [ValidateContext, hw, hcur, herr]
  · intro env s h
    by_cases h1 : MAX_RECOVERY_ATTEMPTS < s.attempts + 1
    · simp [RecreateContext, h1] at h
    · by_cases h2 : env.makeCurrentOk = false
      · simp [RecreateContext, h1, h2] at h
      · rcases hcb : env.contextLossCallback with _ | b
        · simp [RecreateContext, h1, h2, hcb]
        · cases b
          · simp [RecreateContext, h1, h2, hcb] at h
          · simp [RecreateContext, h1, h2, hcb]
  · decide

open MetaImGUI WindowManager in
/-- C5 witness: the valid-resource reset applied at a concrete state with
`attempts = 2`. -/
theorem C5_recovery_resets_attempts_witness :
    (ValidateContext
        { currentIsWindow := true, glErrorLost := false, makeCurrentOk := true,
          contextLossCallback := some false }
        { hasWindow := true, shouldClose := false,
          attempts := 2 }).state.attempts = 0 ∧
      (ValidateContext
        { currentIsWindow := true, glErrorLost := false, makeCurrentOk := true,
          contextLossCallback := some false }
        { hasWindow := true, shouldClose := false,
          attempts := 2 }).result = true :=
  C5_recovery_resets_attempts.1
    { currentIsWindow := true, glErrorLost := false, makeCurrentOk := true,
      contextLossCallback := some false }
    { hasWindow := true, shouldClose := false, attempts := 2 }
    rfl rfl rfl

open MetaImGUI WindowManager in
/-- C10: calling `ValidateContext` when no window exists returns false and
leaves the recovery state unchanged: the attempts counter is untouched, the
recovery callback is not invoked, and no close request is issued. -/
theorem C10_validate_null_window (env : GlEnv) (s : RecoveryState)
    (h : s.hasWindow = false) :
    ValidateContext env s =
      { state := s, result := false, cbInvoked := false } := by
  simp [ValidateContext, h]

open MetaImGUI WindowManager in
/-- C10 witness: concrete no-window state with a pending attempts count. -/
theorem C10_validate_null_window_witness :
    ValidateContext failEnv
        { hasWindow := false, shouldClose := false, attempts := 2 } =
      { state := { hasWindow := false, shouldClose := false, attempts := 2 },
        result := false, cbInvoked := false } :=
  C10_validate_null_window failEnv
    { hasWindow := false, shouldClose := false, attempts := 2 } rfl

namespace MetaImGUI.ISSTracker

theorem trimHistory_of_le (h : List ISSPosition)
    (hle : h.length ≤ m_maxHistorySize) : trimHistory h = h := by
  unfold trimHistory
  simp [Nat.not_lt.2 hle]

theorem trimHistory_suffix (h : List ISSPosition) : trimHistory h <:+ h := by
  induction h using trimHistory.induct with
  | case1 h hgt ih =>
    rw [trimHistory]
    simp only [hgt, if_pos]
    exact ih.trans (List.tail_suffix h)
  | case2 h hle =>
    rw [trimHistory]
    simp [hle]

end MetaImGUI.ISSTracker

namespace MetaImGUI.ISSTracker

theorem trimHistory_length_le (h : List ISSPosition) :
    (trimHistory h).length ≤ m_maxHistorySize := by
  induction h using trimHistory.induct with
  | case1 h hgt ih =>
    rw [trimHistory]
    simpa [hgt] using ih
  | case2 h hle =>
    rw [trimHistory]
    rw [if_neg hle]
    omega

theorem AddToHistory_formula (h : List ISSPosition) (p : ISSPosition)
    (hv : p.valid = true) (hle : h.length ≤ m_maxHistorySize) :
    AddToHistory h p =
      if h.length = m_maxHistorySize then h.tail ++ [p] else h ++ [p] := by
  have hm : m_maxHistorySize = 100 := rfl
  unfold AddToHistory
  rw [hv]
  rw [if_neg (by simp)]
  by_cases hfull : h.length = m_maxHistorySize
  · rw [if_pos hfull]
    rw [trimHistory]
    have hlen : (h ++ [p]).length = m_maxHistorySize + 1 := by
      simp [hfull]
    rw [if_pos (by omega)]
    have htail : (h ++ [p]).tail = h.tail ++ [p] := by
      cases h with
      | nil => rw [hm] at hfull; simp at hfull
      | cons a rest => simp
    rw [htail]
    apply trimHistory_of_le
    have htl : h.tail.length = h.length - 1 := by simp
    simp only [List.length_append, List.length_singleton]
    omega
  · rw [if_neg hfull]
    apply trimHistory_of_le
    simp only [List.length_append, List.length_singleton]
    omega

end MetaImGUI.ISSTracker

open MetaImGUI ISSTracker in
/-- C6: the poller history is a FIFO bounded buffer of capacity 100:
invalid positions are never inserted; a valid position is appended at the
tail; when the buffer already holds 100 entries the oldest (head) entry is
evicted; the retained entries are a suffix of the insertion sequence
(insertion order preserved) and the size never exceeds 100. -/
theorem C6_history_bounded_fifo :
    m_maxHistorySize = 100 ∧
    (∀ h p, p.valid = false → AddToHistory h p = h) ∧
    (∀ h p, p.valid = true → AddToHistory h p <:+ h ++ [p]) ∧
    (∀ h p, p.valid = true → (AddToHistory h p).length ≤ 100) ∧
    (∀ h p, p.valid = true → h.length ≤ 100 →
      AddToHistory h p =
        if h.length = 100 then h.tail ++ [p] else h ++ [p]) := by
  refine ⟨rfl, ?_, ?_, ?_, ?_⟩
  · intro h p hv
    simp [AddToHistory, hv]
  · intro h p hv
    simp only [AddToHistory, hv, Bool.true_eq_false, if_false]
    exact trimHistory_suffix (h ++ [p])
  · intro h p hv
    simp only [AddToHistory, hv, Bool.true_eq_false, if_false]
    exact trimHistory_length_le (h ++ [p])
  · intro h p hv hle
    exact AddToHistory_formula h p hv hle

open MetaImGUI ISSTracker in
/-- C6 witness: inserting a valid position into an empty history appends
it at the tail. -/
theorem C6_history_bounded_fifo_witness :
    AddToHistory []
        { latitude := 1, longitude := 2, altitude := 3, velocity := 4,
          timestamp := 5, valid := true } =
      if ([] : List ISSPosition).length = 100 then
        ([] : List ISSPosition).tail ++
          [{ latitude := 1, longitude := 2, altitude := 3, velocity := 4,
             timestamp := 5, valid := true }]
      else
        [] ++
          [{ latitude := 1, longitude := 2, altitude := 3, velocity := 4,
             timestamp := 5, valid := true }] :=
  C6_history_bounded_fifo.2.2.2.2 []
    { latitude := 1, longitude := 2, altitude := 3, velocity := 4,
      timestamp := 5, valid := true } rfl (by decide)

namespace MetaImGUI.ISSTracker

theorem waitLoopAux_cancel (tCancel t0 : Nat) (h5 : tCancel ≤ t0 + 5000) :
    ∀ m k, 50 - k ≤ m →
    (k = 0 ∧ t0 ≤ tCancel ∨ 1 ≤ k ∧ t0 + 100 * (k - 1) < tCancel) →
    (waitLoopAux tCancel t0 k).2 = true ∧
    tCancel ≤ (waitLoopAux tCancel t0 k).1 ∧
    (waitLoopAux tCancel t0 k).1 < tCancel + 100 := by
  intro m
  induction m with
  | zero =>
    intro k hm hinv
    have hk : 50 ≤ k := by omega
    have htok : tokenAt tCancel (t0 + 100 * k) = true := by
      simp only [tokenAt, decide_eq_true_eq]
      omega
    rw [waitLoopAux, if_pos htok]
    refine ⟨rfl, ?_, ?_⟩
    · simp only [tokenAt, decide_eq_true_eq] at htok
      exact htok
    · rcases hinv with ⟨hk0, _⟩ | ⟨hk1, hprev⟩
      · omega
      · omega
  | succ m ih =>
    intro k hm hinv
    by_cases htok : tokenAt tCancel (t0 + 100 * k) = true
    · rw [waitLoopAux, if_pos htok]
      simp only [tokenAt, decide_eq_true_eq] at htok
      refine ⟨rfl, htok, ?_⟩
      rcases hinv with ⟨hk0, hle⟩ | ⟨hk1, hprev⟩
      · subst hk0; omega
      · omega
    · have hlt : t0 + 100 * k < tCancel := by
        simp only [tokenAt, decide_eq_true_eq] at htok
        omega
      have hel : ¬ (5 ≤ (t0 + 100 * k - t0) / 1000) := by
        simp only [Nat.add_sub_cancel_left]
        omega
      rw [waitLoopAux, if_neg htok, if_neg hel]
      refine ih (k + 1) (by omega) ?_
      right
      exact ⟨by omega, by simpa using hlt⟩

end MetaImGUI.ISSTracker

open MetaImGUI ISSTracker in
/-- C7: during the 5-second inter-iteration delay the stop token is
re-checked every 100ms: a cancellation requested at any point inside the
delay makes the wait loop exit, due to the token, within strictly less
than one further 100ms sub-sleep, and the subsequent loop-top check sees
the token set, so the tracking loop terminates without performing another
fetch iteration. -/
theorem C7_fine_grained_cancellation (tCancel t0 : Nat)
    (h0 : t0 ≤ tCancel) (h5 : tCancel ≤ t0 + 5000) :
    (InterIterationWait tCancel t0).2 = true ∧
    tCancel ≤ (InterIterationWait tCancel t0).1 ∧
    (InterIterationWait tCancel t0).1 < tCancel + 100 ∧
    (∀ fetched hasCallback ts,
      TrackingIteration tCancel (InterIterationWait tCancel t0).1 fetched
        hasCallback ts = (ts, false)) := by
  obtain ⟨hstop, hge, hlt⟩ :=
    waitLoopAux_cancel tCancel t0 h5 50 0 (by omega) (Or.inl ⟨rfl, h0⟩)
  refine ⟨hstop, hge, hlt, ?_⟩
  intro fetched hasCallback ts
  have htok : tokenAt tCancel (InterIterationWait tCancel t0).1 = true := by
    simp only [tokenAt, decide_eq_true_eq]
    exact hge
  simp [TrackingIteration, htok]

open MetaImGUI ISSTracker in
/-- C7 witness: cancellation requested 250ms into the delay that started
at time 0. -/
theorem C7_fine_grained_cancellation_witness :
    (InterIterationWait 250 0).2 = true ∧
    (250 : Nat) ≤ (InterIterationWait 250 0).1 ∧
    (InterIterationWait 250 0).1 < 250 + 100 ∧
    (∀ fetched hasCallback ts,
      TrackingIteration 250 (InterIterationWait 250 0).1 fetched
        hasCallback ts = (ts, false)) :=
  C7_fine_grained_cancellation 250 0 (by decide) (by decide)

open MetaImGUI Application UpdateChecker in
/-- C2: the consumer-side drain in `Render` is take-and-clear: after any
drain the slot is empty, so a second drain with no intervening completion
changes nothing; a completed run's result stored by
`OnUpdateCheckComplete` is applied to consumer state by exactly one drain
and the slot is emptied by that drain. -/
theorem C2_mailbox_take_and_clear :
    (∀ s : AppState, (RenderConsumePending s).pendingUpdateResult = none) ∧
    (∀ s : AppState,
      RenderConsumePending (RenderConsumePending s) = RenderConsumePending s) ∧
    (∀ (s : AppState) (info : UpdateInfo),
      (RenderConsumePending (OnUpdateCheckComplete info s)).latestUpdateInfo
          = some info ∧
      (RenderConsumePending
          (OnUpdateCheckComplete info s)).pendingUpdateResult = none ∧
      (RenderConsumePending
          (OnUpdateCheckComplete info s)).showUpdateNotification = true ∧
      (RenderConsumePending
          (OnUpdateCheckComplete info s)).updateCheckInProgress = false) := by
  refine ⟨?_, ?_, ?_⟩
  · intro s
    cases h : s.pendingUpdateResult <;> simp [RenderConsumePending, h]
  · intro s
    cases h : s.pendingUpdateResult <;> simp [RenderConsumePending, h]
  · intro s info
    simp [RenderConsumePending, OnUpdateCheckComplete]

open MetaImGUI UpdateChecker ISSTracker Application in
/-- C3 code bug: `Cancel()` and `StopTracking()` request stop on the
member `m_stopSource`, which is never connected to the jthread-internal
token the worker lambdas poll, although the header documents `Cancel` as
"Cancel ongoing check" and the worker guards its callback with "Only
invoke callback if not cancelled". Evaluated at the failing input — a run
in flight, cancel requested before the operation completes, no
orchestrator teardown in between — the polled token is still unset, so
the one-shot worker invokes the completion callback and writes the
mailbox, and the poller's next iteration still applies a valid fetched
position to consumer state, contradicting the claim that the result is
never delivered. -/
theorem C3_cancel_never_reaches_worker :
    (Cancel freshWiring).memberSourceRequested = true ∧
    polledToken (Cancel freshWiring) = false ∧
    (∀ (info : UpdateInfo) (app : Application.AppState),
      UpdateWorkerFinishWired (Cancel freshWiring) info true app =
        (Application.OnUpdateCheckComplete info app, true)) ∧
    (StopTracking { tracking := true, workersSpawned := 1 }
        freshWiring).1.tracking = false ∧
    (StopTracking { tracking := true, workersSpawned := 1 }
        freshWiring).2.memberSourceRequested = true ∧
    polledToken (StopTracking { tracking := true, workersSpawned := 1 }
        freshWiring).2 = false ∧
    (TrackingIterationWired
        (StopTracking { tracking := true, workersSpawned := 1 }
          freshWiring).2
        { latitude := 10, longitude := 20, altitude := 0, velocity := 0,
          timestamp := 0, valid := true } true
        { currentPosition :=
            { latitude := 0, longitude := 0, altitude := 0, velocity := 0,
              timestamp := 0, valid := false },
          positionHistory := [] }).2 = true ∧
    (TrackingIterationWired
        (StopTracking { tracking := true, workersSpawned := 1 }
          freshWiring).2
        { latitude := 10, longitude := 20, altitude := 0, velocity := 0,
          timestamp := 0, valid := true } true
        { currentPosition :=
            { latitude := 0, longitude := 0, altitude := 0, velocity := 0,
              timestamp := 0, valid := false },
          positionHistory := [] }).1.positionHistory =
      [{ latitude := 10, longitude := 20, altitude := 0, velocity := 0,
         timestamp := 0, valid := true }] := by
  have hadd :
      AddToHistory []
        { latitude := 10, longitude := 20, altitude := 0, velocity := 0,
          timestamp := 0, valid := true } =
        [{ latitude := 10, longitude := 20, altitude := 0, velocity := 0,
           timestamp := 0, valid := true }] := by
    simp only [AddToHistory]
    rw [if_neg (by simp), List.nil_append]
    exact trimHistory_of_le _ (by simp [m_maxHistorySize])
  refine ⟨rfl, rfl, ?_, rfl, rfl, rfl, ?_, ?_⟩
  · intro info app
    simp [UpdateWorkerFinishWired, Cancel, freshWiring, polledToken,
      Application.OnUpdateCheckComplete]
  · simp [TrackingIterationWired, StopTracking, freshWiring, polledToken]
  · simp [TrackingIterationWired, StopTracking, freshWiring, polledToken,
      hadd]

open MetaImGUI UpdateChecker ISSTracker in
/-- C4: starting while already running is a no-op that changes no state
and spawns no worker (for both the one-shot checker and the poller); two
successive starts from idle spawn exactly one worker, and a worker's
completion step performs at most one mailbox write (its only state change
is that single write). -/
theorem C4_start_at_most_one_in_flight :
    (∀ c : CheckerCtl, c.checking = true → CheckForUpdatesAsync c = (c, false)) ∧
    (∀ c : CheckerCtl, c.checking = false →
      (CheckForUpdatesAsync c).2 = true ∧
      (CheckForUpdatesAsync c).1.workersSpawned = c.workersSpawned + 1 ∧
      CheckForUpdatesAsync (CheckForUpdatesAsync c).1 =
        ((CheckForUpdatesAsync c).1, false)) ∧
    (∀ c : TrackerCtl, c.tracking = true → StartTracking c = (c, false)) ∧
    (∀ c : TrackerCtl, c.tracking = false →
      (StartTracking c).2 = true ∧
      (StartTracking c).1.workersSpawned = c.workersSpawned + 1 ∧
      StartTracking (StartTracking c).1 = ((StartTracking c).1, false)) ∧
    (∀ (tCancel tCheck : Nat) (info : UpdateInfo) (hasCallback : Bool)
        (app : Application.AppState),
      ((UpdateWorkerFinish tCancel tCheck info hasCallback app).2 = false →
        (UpdateWorkerFinish tCancel tCheck info hasCallback app).1 = app) ∧
      ((UpdateWorkerFinish tCancel tCheck info hasCallback app).2 = true →
        (UpdateWorkerFinish tCancel tCheck info hasCallback app).1 =
          Application.OnUpdateCheckComplete info app)) := by
  refine ⟨?_, ?_, ?_, ?_, ?_⟩
  · intro c h
    simp [CheckForUpdatesAsync, h]
  · intro c h
    simp [CheckForUpdatesAsync, h]
  · intro c h
    simp [StartTracking, h]
  · intro c h
    simp [StartTracking, h]
  · intro tCancel tCheck info hasCallback app
    by_cases htok : tokenAt tCancel tCheck = false ∧ hasCallback = true
    · simp [UpdateWorkerFinish, htok]
    · simp [UpdateWorkerFinish, htok]

open MetaImGUI UpdateChecker in
/-- C4 witness: a second start while a check is in flight is a no-op. -/
theorem C4_start_at_most_one_in_flight_witness :
    CheckForUpdatesAsync { checking := true, workersSpawned := 1 } =
      ({ checking := true, workersSpawned := 1 }, false) :=
  C4_start_at_most_one_in_flight.1 { checking := true, workersSpawned := 1 } rfl

open MetaImGUI UpdateChecker ISSTracker in
/-- C8: every failure inside a background operation is caught at the
thread/callback boundary: the update-check implementation totally returns
an `UpdateInfo` whose `updateAvailable` is false whenever the fetch
raises, the response is empty, or the parse raises; the position-fetch
implementation totally returns an `ISSPosition` whose `valid` is false in
the corresponding failure cases; and an exception thrown by a completion
callback is caught and converted to a log line. -/
theorem C8_failures_never_escape :
    (∀ (cv : String) (stop : Bool) (e : String)
        (p : String → Except String UpdateInfo),
      (CheckForUpdatesImpl cv stop (Except.error e) p).updateAvailable = false) ∧
    (∀ (cv : String) (stop : Bool) (p : String → Except String UpdateInfo),
      (CheckForUpdatesImpl cv stop (Except.ok "") p).updateAvailable = false) ∧
    (∀ (cv : String) (stop : Bool) (s e : String),
      (CheckForUpdatesImpl cv stop (Except.ok s)
          (fun _ => Except.error e)).updateAvailable = false) ∧
    (∀ (e : String) (p : String → Except String ISSPosition),
      (FetchPositionImpl (Except.error e) p).valid = false) ∧
    (∀ p : String → Except String ISSPosition,
      (FetchPositionImpl (Except.ok "") p).valid = false) ∧
    (∀ s e : String,
      (FetchPositionImpl (Except.ok s) (fun _ => Except.error e)).valid
        = false) ∧
    (∀ e : String,
      InvokeCheckerCallbackGuarded (Except.error e) =
        some ("Update Checker: Callback threw exception: " ++ e)) ∧
    (∀ e : String,
      InvokeTrackerCallbackGuarded (Except.error e) =
        some ("ISS Tracker: Callback threw exception: " ++ e)) := by
  refine ⟨?_, ?_, ?_, ?_, ?_, ?_, ?_, ?_⟩
  · intro cv stop e p
    simp [CheckForUpdatesImpl]
  · intro cv stop p
    by_cases hstop : stop = true <;> simp [CheckForUpdatesImpl, hstop]
  · intro cv stop s e
    by_cases hstop : stop = true
    · simp [CheckForUpdatesImpl, hstop]
    · by_cases hs : s = "" <;> simp [CheckForUpdatesImpl, hstop, hs]
  · intro e p
    simp [FetchPositionImpl]
  · intro p
    simp [FetchPositionImpl]
  · intro s e
    by_cases hs : s = "" <;> simp [FetchPositionImpl, hs]
  · intro e
    simp [InvokeCheckerCallbackGuarded]
  · intro e
    simp [InvokeTrackerCallbackGuarded]
